import Mathlib

/-!
Shallow embedding of the two Ansible modules of this repository,
`library/gandi_livedns.py` (record management) and
`library/gandi_livedns_facts.py` (record listing), together with proofs
about their behaviour.

The HTTP transport (`fetch_url`) is modelled as a pure environment
`Env : Request → Response`; every function that talks to the network
returns, besides its `Except`-style outcome (`fail_json` and uncaught
Python exceptions abort an invocation), the list of HTTP requests it
issued, in order.  JSON dicts returned by the provider are modelled by
`Obj`, a record of the keys the modules ever read, with `none` standing
for an absent key.
-/

/-- HTTP methods used by the two modules. -/
inductive Method
  | GET
  | POST
  | PUT
  | DELETE
deriving DecidableEq, Repr

/-- Rendering of a method name as it appears inside error messages. -/
def Method.toStr : Method → String
  | .GET => "GET"
  | .POST => "POST"
  | .PUT => "PUT"
  | .DELETE => "DELETE"

/-- A JSON object as the provider returns it: a dict restricted to the
keys the modules ever read (`name`/`uuid` for zones, the `rrset_` keys
for records).  A field is `none` when the key is absent from the dict. -/
structure Obj where
  name : Option String := none
  uuid : Option String := none
  rrset_name : Option String := none
  rrset_type : Option String := none
  rrset_ttl : Option Int := none
  rrset_values : Option (List String) := none
deriving DecidableEq, Repr

/-- A parsed JSON response body: either a single object or a list of
objects (the shapes the modules consume). -/
inductive Body
  | obj (o : Obj)
  | list (l : List Obj)
deriving DecidableEq, Repr

/-- The dict `new_record` built by `create_record` and sent as the POST
payload: `{rrset_name, rrset_type, rrset_values, rrset_ttl}`.  Field
types mirror the (optional) module attributes passed in. -/
structure CreateBody where
  rrset_name : Option String
  rrset_type : Option String
  rrset_values : Option (List String)
  rrset_ttl : Option Int
deriving DecidableEq, Repr

/-- JSON payloads the modules send: the create body and the update body
`{rrset_values, rrset_ttl}`. -/
inductive Payload
  | create (body : CreateBody)
  | update (rrset_values : Option (List String)) (rrset_ttl : Option Int)
deriving DecidableEq, Repr

/-- One HTTP request as issued through `fetch_url`.  The `X-Api-Key` and
`Content-Type` headers are attached identically to every request and are
omitted from the model. -/
structure Request where
  method : Method
  path : String
  payload : Option Payload
deriving DecidableEq, Repr

/-- The provider's answer to a request: the HTTP status from `info` and
the parsed JSON content of the response body (`none` when the response
carried no content). -/
structure Response where
  status : Nat
  body : Option Body := none

/-- The network, modelled as a pure function from requests to responses. -/
abbrev Env := Request → Response

/-- Ways an invocation aborts: an explicit `fail_json` with its message,
or an uncaught Python exception (KeyError / TypeError / IndexError). -/
inductive Err
  | failJson (msg : String)
  | pyError
deriving DecidableEq, Repr

/-- Python truthiness of an optional string: `None` and `""` are falsy. -/
def truthyStr : Option String → Bool
  | none => false
  | some s => s != ""

/-- Python `'%s' % x` for an optional string: `None` prints as "None". -/
def strOfOpt : Option String → String
  | none => "None"
  | some s => s

/-- Python `str.lower()` on one character, for the ASCII identifiers
these modules handle: uppercase A-Z mapped to lowercase. -/
def pyLowerChar (c : Char) : Char :=
  if 65 ≤ c.toNat ∧ c.toNat ≤ 90 then Char.ofNat (c.toNat + 32) else c

/-- Python `str.lower()` applied to every character of the string. -/
def pyLower (s : String) : String := String.mk (s.data.map pyLowerChar)

/-- The `lowercase_string` helper of both modules: lowercases a string
parameter and passes non-strings (here: `None`) through unchanged. -/
def lowercase_string : Option String → Option String
  | none => none
  | some s => some (pyLower s)

/-- Python `set(xs) == set(ys)` on lists of strings: mutual membership,
ignoring order and duplicates. -/
def pySetEq (xs ys : List String) : Bool :=
  (xs.all fun x => ys.contains x) && (ys.all fun y => xs.contains y)

/-- Python subscript `record['rrset_ttl']` on a possibly-`None` dict:
raises on `None` or on a missing key. -/
def dictGetTtl : Option Obj → Except Err Int
  | some o =>
    match o.rrset_ttl with
    | some v => Except.ok v
    | none => Except.error Err.pyError
  | none => Except.error Err.pyError

/-- Python subscript `record['rrset_values']` on a possibly-`None` dict. -/
def dictGetValues : Option Obj → Except Err (List String)
  | some o =>
    match o.rrset_values with
    | some v => Except.ok v
    | none => Except.error Err.pyError
  | none => Except.error Err.pyError

/-- Python subscript `r['rrset_type']` on a possibly-`None` dict. -/
def dictGetType : Option Obj → Except Err String
  | some o =>
    match o.rrset_type with
    | some v => Except.ok v
    | none => Except.error Err.pyError
  | none => Except.error Err.pyError

/-- Python `records[0]` where `records` may be `None` (TypeError), an
empty list (IndexError) or a non-empty list. -/
def pyIndex0 : Option (List (Option Obj)) → Except Err (Option Obj)
  | some (r :: _) => Except.ok r
  | some [] => Except.error Err.pyError
  | none => Except.error Err.pyError

/-- The loop of `_get_zone_id`: scan the zone list for an exact name
match and return its uuid; `fail_json` when no zone matches. -/
def findZoneUuid (zone_name : String) : List Obj → Except Err String
  | [] => Except.error (Err.failJson s!"No zone found with name {zone_name}")
  | z :: rest =>
    match z.name with
    | none => Except.error Err.pyError
    | some n =>
      if n = zone_name then
        match z.uuid with
        | none => Except.error Err.pyError
        | some u => Except.ok u
      else findZoneUuid zone_name rest

/-- The list comprehension of `get_records` filtering records by
`rrset_type` when no name was given (the subscript may raise). -/
def filterByType (ty : Option String) : List (Option Obj) → Except Err (List (Option Obj))
  | [] => Except.ok []
  | r :: rest =>
    match dictGetType r with
    | Except.error e => Except.error e
    | Except.ok rt =>
      match filterByType ty rest with
      | Except.error e => Except.error e
      | Except.ok rest2 =>
        if some rt = ty then Except.ok (r :: rest2) else Except.ok rest2

/-- The error message format of `_gandi_api_call`:
"API error {0}; Status: {1}; Method: {2}: Call: {3}". -/
def api_error_msg (err_s : String) (status : Nat) (m : Method) (api_call : String) : String :=
  let ms := m.toStr
  s!"API error {err_s}; Status: {status}; Method: {ms}: Call: {api_call}"

/-- Sequencing of two network-touching computations: requests issued so
far are kept even when the invocation aborts. -/
def apiBind {α β : Type} (x : Except Err α × List Request)
    (f : α → Except Err β × List Request) : Except Err β × List Request :=
  match x with
  | (Except.error e, t) => (Except.error e, t)
  | (Except.ok a, t) =>
    let y := f a
    (y.1, t ++ y.2)

@[simp]
theorem apiBind_ok {α β : Type} (a : α) (t : List Request)
    (f : α → Except Err β × List Request) :
    apiBind (Except.ok a, t) f = ((f a).1, t ++ (f a).2) := rfl

@[simp]
theorem apiBind_error {α β : Type} (e : Err) (t : List Request)
    (f : α → Except Err β × List Request) :
    apiBind (Except.error e, t) f = (Except.error e, t) := rfl

theorem apiBind_forall {α β : Type} (P : Request → Prop)
    (x : Except Err α × List Request) (f : α → Except Err β × List Request)
    (hx : ∀ r ∈ x.2, P r) (hf : ∀ a, ∀ r ∈ (f a).2, P r) :
    ∀ r ∈ (apiBind x f).2, P r := by
  rcases x with ⟨res, t⟩
  cases res with
  | error e => simpa using hx
  | ok a =>
    intro r hr
    simp only [apiBind] at hr
    rcases List.mem_append.mp hr with h | h
    · exact hx r h
    · exact hf a r h

/-- The dict built by `build_result` / `build_results`: the four record
fields (a field is `none` when its key is absent), plus the `zone` key
(present iff the module's `zone` attribute is truthy) and the `domain`
key (outer `some` iff the key is present; its value may itself be the
Python `None`). -/
structure ResultDict where
  name : Option String := none
  type : Option String := none
  ttl : Option Int := none
  values : Option (List String) := none
  zone : Option String := none
  domain : Option (Option String) := none
deriving DecidableEq, Repr

namespace GandiLivedns

/-- Module parameters of `gandi_livedns` as declared in its
`argument_spec` (defaults included), plus the host-supplied check mode. -/
structure Params where
  api_key : String
  record : Option String := some "@"
  state : String := "present"
  ttl : Option Int := some 10800
  type : Option String := none
  values : Option (List String) := none
  zone : Option String := none
  domain : Option String := none
  check_mode : Bool := false

/-- The `GandiAPI` object state set up by `__init__`. -/
structure Ctx where
  api_key : String
  record : Option String
  state : String
  ttl : Option Int
  type : Option String
  values : Option (List String)
  zone : Option String
  domain : Option String
  check_mode : Bool

/-- `GandiAPI.__init__`: copies the parameters, lowercasing `record` and
`domain` (and only those two string parameters). -/
def initCtx (p : Params) : Ctx :=
  { api_key := p.api_key
    record := lowercase_string p.record
    state := p.state
    ttl := p.ttl
    type := p.type
    values := p.values
    zone := p.zone
    domain := lowercase_string p.domain
    check_mode := p.check_mode }

/-- The class-level `error_strings` table of `gandi_livedns.py`, read
through `dict.get(status, '')`. -/
def error_strings (status : Nat) : String :=
  if status = 400 then "Bad request"
  else if status = 401 then "Permission denied"
  else if status = 404 then "Resource not found"
  else ""

/-- `GandiAPI._gandi_api_call` of the management module: issues the
request and fails with the formatted API error when the status is >= 400,
except that a 404 is tolerated when `error_on_404` is false. -/
def gandi_api_call (env : Env) (api_call : String) (method : Method)
    (payload : Option Payload) (error_on_404 : Bool) :
    Except Err (Option Body × Nat) × List Request :=
  let req : Request := { method := method, path := api_call, payload := payload }
  let resp := env req
  if 400 ≤ resp.status ∧ (resp.status ≠ 404 ∨ error_on_404 = true) then
    (Except.error (Err.failJson
        (api_error_msg (error_strings resp.status) resp.status method api_call)),
     [req])
  else
    (Except.ok (resp.body, resp.status), [req])

/-- `GandiAPI.get_zones`: `GET /zones`, returning the parsed body. -/
def get_zones (env : Env) : Except Err (Option Body) × List Request :=
  apiBind (gandi_api_call env "/zones" Method.GET none true) fun rs =>
    (Except.ok rs.1, [])

/-- `GandiAPI._get_zone_id`: linear scan of the zone list for an exact
name match; iterating a non-list response raises. -/
def get_zone_id (env : Env) (zone_name : String) :
    Except Err String × List Request :=
  apiBind (get_zones env) fun zones =>
    match zones with
    | some (Body.list zs) => (findZoneUuid zone_name zs, [])
    | _ => (Except.error Err.pyError, [])

/-- The scope-resolution snippet shared by `ensure_dns_record` and
`delete_dns_records`: `zone_id = self._get_zone_id(self.zone)` when
`self.zone` is truthy, else `zone_id = None`. -/
def zone_id_opt (env : Env) (ctx : Ctx) :
    Except Err (Option String) × List Request :=
  if truthyStr ctx.zone then
    apiBind (get_zone_id env (strOfOpt ctx.zone)) fun zid =>
      (Except.ok (some zid), [])
  else
    (Except.ok none, [])

/-- `GandiAPI.get_records`: 404-tolerant lookup.  Returns `none` on a
404 ("no record"), wraps a single object into a one-element list, and
filters client-side by type when no name was given. -/
def get_records (env : Env) (name ty zone_id domain : Option String) :
    Except Err (Option (List (Option Obj))) × List Request :=
  let url0 := if truthyStr zone_id then "/zones/" ++ strOfOpt zone_id
              else "/domains/" ++ strOfOpt domain
  let url1 := url0 ++ "/records"
  let url :=
    if truthyStr name then
      let u2 := url1 ++ "/" ++ strOfOpt name
      if truthyStr ty then u2 ++ "/" ++ strOfOpt ty else u2
    else url1
  apiBind (gandi_api_call env url Method.GET none false) fun rs =>
    if rs.2 = 404 then (Except.ok none, [])
    else
      let records : List (Option Obj) :=
        match rs.1 with
        | none => [none]
        | some (Body.obj o) => [some o]
        | some (Body.list l) => l.map some
      if !truthyStr name && truthyStr ty then
        (Except.map some (filterByType ty records), [])
      else
        (Except.ok (some records), [])

/-- `GandiAPI.create_record`: POST the constructed record; return it
only on status 201, else return `None`. -/
def create_record (env : Env) (name ty : Option String)
    (values : Option (List String)) (ttl : Option Int)
    (zone_id domain : Option String) :
    Except Err (Option CreateBody) × List Request :=
  let url := (if truthyStr zone_id then "/zones/" ++ strOfOpt zone_id
              else "/domains/" ++ strOfOpt domain) ++ "/records"
  let new_record : CreateBody :=
    { rrset_name := name, rrset_type := ty, rrset_values := values, rrset_ttl := ttl }
  apiBind (gandi_api_call env url Method.POST (some (Payload.create new_record)) true)
    fun rs =>
      if rs.2 = 201 then (Except.ok (some new_record), [])
      else (Except.ok none, [])

/-- `GandiAPI.update_record`: PUT `{rrset_values, rrset_ttl}` to the
name/type path, returning the parsed response body. -/
def update_record (env : Env) (name ty : Option String)
    (values : Option (List String)) (ttl : Option Int)
    (zone_id domain : Option String) :
    Except Err (Option Body) × List Request :=
  let url := (if truthyStr zone_id then "/zones/" ++ strOfOpt zone_id
              else "/domains/" ++ strOfOpt domain)
             ++ "/records/" ++ strOfOpt name ++ "/" ++ strOfOpt ty
  apiBind (gandi_api_call env url Method.PUT
      (some (Payload.update values ttl)) true)
    fun rs => (Except.ok rs.1, [])

/-- `GandiAPI.delete_record`: fails on a missing type/record or on a
supplied value payload before issuing the DELETE. -/
def delete_record (env : Env) (ctx : Ctx) (name ty : Option String)
    (zone_id domain : Option String) :
    Except Err Unit × List Request :=
  if ctx.type = none ∨ ctx.record = none then
    (Except.error (Err.failJson "You must provide a type and a record to delete a record"), [])
  else if ctx.values ≠ none then
    (Except.error (Err.failJson "You cannot provide a value when deleting a record"), [])
  else
    let url := (if truthyStr zone_id then "/zones/" ++ strOfOpt zone_id
                else "/domains/" ++ strOfOpt domain)
               ++ "/records/" ++ strOfOpt name ++ "/" ++ strOfOpt ty
    apiBind (gandi_api_call env url Method.DELETE none true) fun _ =>
      (Except.ok (), [])

/-- `GandiAPI.delete_dns_records`: resolve scope, look up, and delete
when records exist (changed even in check mode, DELETE only outside it). -/
def delete_dns_records (env : Env) (ctx : Ctx) :
    Except Err Bool × List Request :=
  apiBind (zone_id_opt env ctx) fun zone_id =>
  apiBind (get_records env ctx.record ctx.type zone_id ctx.domain) fun records =>
  match records with
  | some (_ :: _) =>
    if ctx.check_mode then (Except.ok true, [])
    else
      apiBind (delete_record env ctx ctx.record ctx.type zone_id ctx.domain) fun _ =>
        (Except.ok true, [])
  | _ => (Except.ok false, [])

/-- The dict `new_record` synthesized at the top of `ensure_dns_record`:
`{"type": ..., "name": ..., "values": ..., "ttl": ...}` — note the plain
(non-`rrset_`-prefixed) keys. -/
structure NewRecord where
  type : Option String
  name : Option String
  values : Option (List String)
  ttl : Option Int
deriving DecidableEq, Repr

/-- The dicts that can flow into `build_result` as the operation result:
a raw provider record, the synthesized `new_record` of
`ensure_dns_record` (plain keys), or the posted create body
(`rrset_` keys). -/
inductive RecordDict
  | raw (o : Obj)
  | synthesized (r : NewRecord)
  | posted (b : CreateBody)
deriving DecidableEq, Repr

/-- `result.get('rrset_name', None)`: the synthesized dict uses plain
keys, so the `rrset_name` key is absent from it. -/
def RecordDict.getRrsetName : RecordDict → Option String
  | .raw o => o.rrset_name
  | .synthesized _ => none
  | .posted b => b.rrset_name

/-- `result.get('rrset_type', None)`. -/
def RecordDict.getRrsetType : RecordDict → Option String
  | .raw o => o.rrset_type
  | .synthesized _ => none
  | .posted b => b.rrset_type

/-- `result.get('rrset_ttl', None)`. -/
def RecordDict.getRrsetTtl : RecordDict → Option Int
  | .raw o => o.rrset_ttl
  | .synthesized _ => none
  | .posted b => b.rrset_ttl

/-- `result.get('rrset_values', None)`. -/
def RecordDict.getRrsetValues : RecordDict → Option (List String)
  | .raw o => o.rrset_values
  | .synthesized _ => none
  | .posted b => b.rrset_values

/-- `GandiAPI.build_result`: rename the `rrset_` fields (dropping absent
ones) and attach the `zone` key when `self.zone` is truthy, else the
`domain` key. -/
def build_result (ctx : Ctx) : Option RecordDict → Option ResultDict
  | none => none
  | some r =>
    some { name := r.getRrsetName
           type := r.getRrsetType
           ttl := r.getRrsetTtl
           values := r.getRrsetValues
           zone := if truthyStr ctx.zone then ctx.zone else none
           domain := if truthyStr ctx.zone then none else some ctx.domain }

/-- The first update test of `ensure_dns_record`:
`self.ttl is not None and record['rrset_ttl'] != self.ttl` (the
subscript is only evaluated when `self.ttl` is set). -/
def ttlDiffers (ctx : Ctx) (record : Option Obj) : Except Err Bool :=
  match ctx.ttl with
  | none => Except.ok false
  | some t =>
    match dictGetTtl record with
    | Except.error e => Except.error e
    | Except.ok rt => Except.ok (rt != t)

/-- The second update test of `ensure_dns_record`:
`self.values is not None and set(record['rrset_values']) != set(self.values)`. -/
def valuesDiffer (ctx : Ctx) (record : Option Obj) : Except Err Bool :=
  match ctx.values with
  | none => Except.ok false
  | some vs =>
    match dictGetValues record with
    | Except.error e => Except.error e
    | Except.ok rvs => Except.ok (!pySetEq rvs vs)

/-- `GandiAPI.ensure_dns_record`: the present-intent reconciliation.
Returns the result dict together with the `changed` flag. -/
def ensure_dns_record (env : Env) (ctx : Ctx) :
    Except Err (Option RecordDict × Bool) × List Request :=
  let new_record : NewRecord :=
    { type := ctx.type, name := ctx.record, values := ctx.values, ttl := ctx.ttl }
  apiBind (zone_id_opt env ctx) fun zone_id =>
  apiBind (get_records env ctx.record ctx.type zone_id ctx.domain) fun records =>
  match records with
  | some (record :: _) =>
    apiBind (ttlDiffers ctx record, []) fun du1 =>
    apiBind (valuesDiffer ctx record, []) fun du2 =>
    if du1 || du2 then
      if ctx.check_mode then
        (Except.ok (some (RecordDict.synthesized new_record), true), [])
      else
        apiBind (update_record env ctx.record ctx.type ctx.values ctx.ttl
            zone_id ctx.domain) fun _ =>
        apiBind (get_records env ctx.record ctx.type zone_id ctx.domain) fun records2 =>
        apiBind (pyIndex0 records2, []) fun result =>
          (Except.ok (Option.map RecordDict.raw result, true), [])
    else
      (Except.ok (Option.map RecordDict.raw record, false), [])
  | _ =>
    if ctx.check_mode then
      (Except.ok (some (RecordDict.synthesized new_record), true), [])
    else
      apiBind (create_record env ctx.record ctx.type ctx.values ctx.ttl
          zone_id ctx.domain) fun created =>
        (Except.ok (Option.map RecordDict.posted created, true), [])

/-- The module's `exit_json` output: the `changed` flag, and for
present-intent runs the `result.record` value (absent for deletions). -/
structure ModuleExit where
  changed : Bool
  record : Option (Option ResultDict) := none
deriving DecidableEq, Repr

/-- `main` of `gandi_livedns.py`: the framework validation declared via
`required_if` (present requires record/type/values, absent requires
record/type), the explicit zone/domain check, then the present or absent
flow. -/
def main (env : Env) (p : Params) : Except Err ModuleExit × List Request :=
  if p.state = "present" ∧ (p.record = none ∨ p.type = none ∨ p.values = none) then
    (Except.error (Err.failJson "missing required arguments"), [])
  else if p.state = "absent" ∧ (p.record = none ∨ p.type = none) then
    (Except.error (Err.failJson "missing required arguments"), [])
  else if ¬truthyStr p.zone ∧ ¬truthyStr p.domain then
    (Except.error (Err.failJson "At least one of zone and domain parameters need to be defined."), [])
  else
    let gandi_api := initCtx p
    if gandi_api.state = "present" then
      apiBind (ensure_dns_record env gandi_api) fun rc =>
        (Except.ok { changed := rc.2, record := some (build_result gandi_api rc.1) }, [])
    else
      apiBind (delete_dns_records env gandi_api) fun changed =>
        (Except.ok { changed := changed, record := none }, [])

end GandiLivedns

namespace GandiLivednsFacts

/-- Module parameters of `gandi_livedns_facts` as declared in its
`argument_spec` (no defaults beyond `None`). -/
structure Params where
  api_key : String
  record : Option String := none
  type : Option String := none
  zone : Option String := none
  domain : Option String := none

/-- The `GandiAPI` object state set up by `__init__` of the facts module. -/
structure Ctx where
  api_key : String
  record : Option String
  type : Option String
  zone : Option String
  domain : Option String

/-- `GandiAPI.__init__` of the facts module: copies the parameters,
lowercasing `record` and `domain`. -/
def initCtx (p : Params) : Ctx :=
  { api_key := p.api_key
    record := lowercase_string p.record
    type := p.type
    zone := p.zone
    domain := lowercase_string p.domain }

/-- The class-level `error_strings` table of `gandi_livedns_facts.py`:
unlike the management module it has no entry for 400. -/
def error_strings (status : Nat) : String :=
  if status = 401 then "Permission denied"
  else if status = 404 then "Resource not found"
  else ""

/-- `GandiAPI._gandi_api_call` of the facts module: fails on every
status >= 400; the `error_on_404` parameter is accepted but never used
(the source checks `info['status'] >= 400` unconditionally). -/
def gandi_api_call (env : Env) (api_call : String) (method : Method)
    (payload : Option Payload) (error_on_404 : Bool) :
    Except Err (Option Body × Nat) × List Request :=
  let req : Request := { method := method, path := api_call, payload := payload }
  let resp := env req
  if 400 ≤ resp.status then
    (Except.error (Err.failJson
        (api_error_msg (error_strings resp.status) resp.status method api_call)),
     [req])
  else
    (Except.ok (resp.body, resp.status), [req])

/-- `GandiAPI.get_zones` of the facts module. -/
def get_zones (env : Env) : Except Err (Option Body) × List Request :=
  apiBind (gandi_api_call env "/zones" Method.GET none true) fun rs =>
    (Except.ok rs.1, [])

/-- `GandiAPI._get_zone_id` of the facts module. -/
def get_zone_id (env : Env) (zone_name : String) :
    Except Err String × List Request :=
  apiBind (get_zones env) fun zones =>
    match zones with
    | some (Body.list zs) => (findZoneUuid zone_name zs, [])
    | _ => (Except.error Err.pyError, [])

/-- The scope-resolution snippet of `get_dns_records`. -/
def zone_id_opt (env : Env) (ctx : Ctx) :
    Except Err (Option String) × List Request :=
  if truthyStr ctx.zone then
    apiBind (get_zone_id env (strOfOpt ctx.zone)) fun zid =>
      (Except.ok (some zid), [])
  else
    (Except.ok none, [])

/-- `GandiAPI.get_records` of the facts module: textually the same as
the management module's, but it calls the facts `_gandi_api_call`, whose
ignored `error_on_404` makes the `status == 404` branch dead code. -/
def get_records (env : Env) (name ty zone_id domain : Option String) :
    Except Err (Option (List (Option Obj))) × List Request :=
  let url0 := if truthyStr zone_id then "/zones/" ++ strOfOpt zone_id
              else "/domains/" ++ strOfOpt domain
  let url1 := url0 ++ "/records"
  let url :=
    if truthyStr name then
      let u2 := url1 ++ "/" ++ strOfOpt name
      if truthyStr ty then u2 ++ "/" ++ strOfOpt ty else u2
    else url1
  apiBind (gandi_api_call env url Method.GET none false) fun rs =>
    if rs.2 = 404 then (Except.ok none, [])
    else
      let records : List (Option Obj) :=
        match rs.1 with
        | none => [none]
        | some (Body.obj o) => [some o]
        | some (Body.list l) => l.map some
      if !truthyStr name && truthyStr ty then
        (Except.map some (filterByType ty records), [])
      else
        (Except.ok (some records), [])

/-- `GandiAPI.get_dns_records`: resolve scope, then look the records up. -/
def get_dns_records (env : Env) (ctx : Ctx) :
    Except Err (Option (List (Option Obj))) × List Request :=
  apiBind (zone_id_opt env ctx) fun zone_id =>
    get_records env ctx.record ctx.type zone_id ctx.domain

/-- The loop body of `build_results`: shape each record dict (a `None`
element would raise on `.get`). -/
def buildEach (ctx : Ctx) : List (Option Obj) → Except Err (List ResultDict)
  | [] => Except.ok []
  | none :: _ => Except.error Err.pyError
  | some o :: rest =>
    match buildEach ctx rest with
    | Except.error e => Except.error e
    | Except.ok rest2 =>
      Except.ok ({ name := o.rrset_name
                   type := o.rrset_type
                   ttl := o.rrset_ttl
                   values := o.rrset_values
                   zone := if truthyStr ctx.zone then ctx.zone else none
                   domain := if truthyStr ctx.zone then none
                             else some ctx.domain } :: rest2)

/-- `GandiAPI.build_results`: `None` passes through, otherwise each
record is shaped. -/
def build_results (ctx : Ctx) :
    Option (List (Option Obj)) → Except Err (Option (List ResultDict))
  | none => Except.ok none
  | some rs =>
    match buildEach ctx rs with
    | Except.error e => Except.error e
    | Except.ok shaped => Except.ok (some shaped)

/-- The facts module's `exit_json` output: `changed` plus the
`gandi_livedns_facts.records` fact. -/
structure ModuleExit where
  changed : Bool
  records : Option (List ResultDict)
deriving DecidableEq, Repr

/-- `main` of `gandi_livedns_facts.py`: the zone/domain check, the
lookup, the shaping, then `exit_json(changed=False, ...)`. -/
def main (env : Env) (p : Params) : Except Err ModuleExit × List Request :=
  if ¬truthyStr p.zone ∧ ¬truthyStr p.domain then
    (Except.error (Err.failJson "At least one of zone and domain parameters need to be defined."), [])
  else
    let gandi_api := initCtx p
    apiBind (get_dns_records env gandi_api) fun results =>
    apiBind (build_results gandi_api results, []) fun shaped =>
      (Except.ok { changed := false, records := shaped }, [])

end GandiLivednsFacts

/-- A trace is read-only when every request in it uses GET (so no POST,
PUT or DELETE was issued). -/
def readOnlyTrace (t : List Request) : Bool :=
  t.all fun r => r.method == Method.GET

theorem readOnlyTrace_of_forall {t : List Request}
    (h : ∀ r ∈ t, r.method = Method.GET) : readOnlyTrace t = true := by
  simp only [readOnlyTrace, List.all_eq_true, beq_iff_eq]
  exact h

theorem readOnlyTrace_append {a b : List Request}
    (ha : readOnlyTrace a = true) (hb : readOnlyTrace b = true) :
    readOnlyTrace (a ++ b) = true := by
  simp only [readOnlyTrace, List.all_append, Bool.and_eq_true]
  exact ⟨ha, hb⟩

namespace GandiLivedns

theorem gandi_api_call_trace (env : Env) (c : String) (m : Method)
    (pl : Option Payload) (e4 : Bool) :
    (gandi_api_call env c m pl e4).2 = [{ method := m, path := c, payload := pl }] := by
  unfold gandi_api_call
  dsimp only
  split <;> rfl

theorem get_records_GET (env : Env) (n ty zid dom : Option String) :
    ∀ r ∈ (get_records env n ty zid dom).2, r.method = Method.GET := by
  unfold get_records
  apply apiBind_forall
  · rw [gandi_api_call_trace]
    intro r hr
    simp only [List.mem_singleton] at hr
    subst hr
    rfl
  · intro a r hr
    dsimp only at hr
    split at hr
    · simp at hr
    · split at hr <;> simp at hr

theorem get_zones_GET (env : Env) :
    ∀ r ∈ (get_zones env).2, r.method = Method.GET := by
  unfold get_zones
  apply apiBind_forall
  · rw [gandi_api_call_trace]
    intro r hr
    simp only [List.mem_singleton] at hr
    subst hr
    rfl
  · intro a r hr
    simp at hr

theorem get_zone_id_GET (env : Env) (zn : String) :
    ∀ r ∈ (get_zone_id env zn).2, r.method = Method.GET := by
  unfold get_zone_id
  apply apiBind_forall
  · exact get_zones_GET env
  · intro a r hr
    split at hr <;> simp at hr

theorem zone_id_opt_GET (env : Env) (ctx : Ctx) :
    ∀ r ∈ (zone_id_opt env ctx).2, r.method = Method.GET := by
  unfold zone_id_opt
  split
  · apply apiBind_forall
    · exact get_zone_id_GET env _
    · intro a r hr
      simp at hr
  · intro r hr
    simp at hr

end GandiLivedns

namespace GandiLivednsFacts

theorem facts_gandi_api_call_trace (env : Env) (c : String) (m : Method)
    (pl : Option Payload) (e4 : Bool) :
    (gandi_api_call env c m pl e4).2 = [{ method := m, path := c, payload := pl }] := by
  unfold gandi_api_call
  dsimp only
  split <;> rfl

theorem facts_get_records_GET (env : Env) (n ty zid dom : Option String) :
    ∀ r ∈ (get_records env n ty zid dom).2, r.method = Method.GET := by
  unfold get_records
  apply apiBind_forall
  · rw [facts_gandi_api_call_trace]
    intro r hr
    simp only [List.mem_singleton] at hr
    subst hr
    rfl
  · intro a r hr
    dsimp only at hr
    split at hr
    · simp at hr
    · split at hr <;> simp at hr

theorem facts_get_zones_GET (env : Env) :
    ∀ r ∈ (get_zones env).2, r.method = Method.GET := by
  unfold get_zones
  apply apiBind_forall
  · rw [facts_gandi_api_call_trace]
    intro r hr
    simp only [List.mem_singleton] at hr
    subst hr
    rfl
  · intro a r hr
    simp at hr

theorem facts_get_zone_id_GET (env : Env) (zn : String) :
    ∀ r ∈ (get_zone_id env zn).2, r.method = Method.GET := by
  unfold get_zone_id
  apply apiBind_forall
  · exact facts_get_zones_GET env
  · intro a r hr
    split at hr <;> simp at hr

theorem facts_zone_id_opt_GET (env : Env) (ctx : Ctx) :
    ∀ r ∈ (zone_id_opt env ctx).2, r.method = Method.GET := by
  unfold zone_id_opt
  split
  · apply apiBind_forall
    · exact facts_get_zone_id_GET env _
    · intro a r hr
      simp at hr
  · intro r hr
    simp at hr

theorem get_dns_records_GET (env : Env) (ctx : Ctx) :
    ∀ r ∈ (get_dns_records env ctx).2, r.method = Method.GET := by
  unfold get_dns_records
  apply apiBind_forall
  · exact facts_zone_id_opt_GET env ctx
  · intro a
    exact facts_get_records_GET env ctx.record ctx.type a ctx.domain

theorem main_GET (env : Env) (p : Params) :
    ∀ r ∈ (main env p).2, r.method = Method.GET := by
  unfold main
  split
  · intro r hr
    simp at hr
  · apply apiBind_forall
    · exact get_dns_records_GET env (initCtx p)
    · intro a
      apply apiBind_forall
      · intro r hr
        simp at hr
      · intro b r hr
        simp at hr

theorem main_changed_false (env : Env) (p : Params) (ex : ModuleExit)
    (h : (main env p).1 = Except.ok ex) : ex.changed = false := by
  unfold main at h
  split at h
  · simp at h
  · rcases hg : get_dns_records env (initCtx p) with ⟨res, tr⟩
    cases res with
    | error e =>
      simp [hg, apiBind] at h
    | ok a =>
      cases hb : build_results (initCtx p) a with
      | error e =>
        simp [hg, hb, apiBind] at h
      | ok shaped =>
        simp only [hg, hb, apiBind_ok, apiBind_error] at h
        simp at h
        rw [← h]

end GandiLivednsFacts

/-- An environment with no record at the looked-up path (the provider
answers 404 to the specific lookup, 200 elsewhere). -/
def noRecordEnv : Env := fun req =>
  if req.path = "/domains/my.com/records/test/A" then { status := 404 }
  else { status := 200 }

/-- A present-intent parameter set running in check (dry-run) mode. -/
def dryRunCreateParams : GandiLivedns.Params :=
  { api_key := "k", record := some "test", type := some "A",
    values := some ["127.0.0.1"], domain := some "my.com", check_mode := true }

/-- C1 (code-bug evidence): in check mode, a would-be create reports
changed=true and issues only the GET lookup (no mutating call), and
`ensure_dns_record` does hand back the synthesized desired record — but
`build_result` reads `rrset_`-prefixed keys that the synthesized dict
does not have, so the record the module finally returns to the caller
carries none of the desired name, type, ttl or values, only the
domain label. -/
theorem dry_run_create_drops_record_fields :
    GandiLivedns.main noRecordEnv dryRunCreateParams =
      (Except.ok
         { changed := true
           record := some (some
             { name := none, type := none, ttl := none, values := none
               zone := none, domain := some (some "my.com") }) },
       [{ method := Method.GET, path := "/domains/my.com/records/test/A", payload := none }]) ∧
    GandiLivedns.ensure_dns_record noRecordEnv (GandiLivedns.initCtx dryRunCreateParams) =
      (Except.ok (some (GandiLivedns.RecordDict.synthesized
          { type := some "A", name := some "test",
            values := some ["127.0.0.1"], ttl := some 10800 }), true),
       [{ method := Method.GET, path := "/domains/my.com/records/test/A", payload := none }]) :=
  ⟨rfl, rfl⟩

/-- An environment answering 404 to the specific-name lookup, for the
404-tolerance comparison of the two modules. -/
def lookup404Env : Env := fun req =>
  if req.path = "/domains/my.com/records/test/A" then { status := 404 }
  else { status := 200 }

/-- C2 (code-bug evidence): on an HTTP 404 for a specific-name lookup,
the management module's `get_records` returns the "no record" result,
but the facts module's `get_records` fails the invocation with an API
error, because its `_gandi_api_call` never consults the `error_on_404`
flag that `get_records` passes. -/
theorem facts_404_lookup_fails :
    GandiLivednsFacts.get_records lookup404Env (some "test") (some "A") none (some "my.com") =
      (Except.error (Err.failJson
        "API error Resource not found; Status: 404; Method: GET: Call: /domains/my.com/records/test/A"),
       [{ method := Method.GET, path := "/domains/my.com/records/test/A", payload := none }]) ∧
    GandiLivedns.get_records lookup404Env (some "test") (some "A") none (some "my.com") =
      (Except.ok none,
       [{ method := Method.GET, path := "/domains/my.com/records/test/A", payload := none }]) :=
  ⟨rfl, rfl⟩

/-- C5: `create_record` returns the constructed record exactly when the
provider answers 201; any other non-erroring status yields `None`, after
the single POST request. -/
theorem create_record_only_201 (env : Env) (name ty : Option String)
    (values : Option (List String)) (ttl : Option Int)
    (zone_id domain : Option String) (s : Nat)
    (hs : (env { method := Method.POST,
                 path := (if truthyStr zone_id then "/zones/" ++ strOfOpt zone_id
                          else "/domains/" ++ strOfOpt domain) ++ "/records",
                 payload := some (Payload.create
                   { rrset_name := name, rrset_type := ty,
                     rrset_values := values, rrset_ttl := ttl }) }).status = s)
    (hok : s < 400) :
    GandiLivedns.create_record env name ty values ttl zone_id domain =
      (Except.ok (if s = 201 then
          some { rrset_name := name, rrset_type := ty,
                 rrset_values := values, rrset_ttl := ttl }
        else none),
       [{ method := Method.POST,
          path := (if truthyStr zone_id then "/zones/" ++ strOfOpt zone_id
                   else "/domains/" ++ strOfOpt domain) ++ "/records",
          payload := some (Payload.create
            { rrset_name := name, rrset_type := ty,
              rrset_values := values, rrset_ttl := ttl }) }]) := by
  unfold GandiLivedns.create_record GandiLivedns.gandi_api_call
  dsimp only
  rw [hs]
  rw [if_neg (fun hc => absurd hc.1 (by omega))]
  simp only [apiBind_ok]
  split <;> simp

/-- Environment answering 201 "created" to everything. -/
def created201Env : Env := fun _ => { status := 201 }

/-- Witness for C5 at a concrete created record. -/
theorem create_record_only_201_witness :
    GandiLivedns.create_record created201Env (some "test") (some "A")
        (some ["192.0.2.1"]) (some 10800) none (some "my.com") =
      (Except.ok (some
         { rrset_name := some "test", rrset_type := some "A"
           rrset_values := some ["192.0.2.1"], rrset_ttl := some 10800 }),
       [{ method := Method.POST, path := "/domains/my.com/records",
          payload := some (Payload.create
            { rrset_name := some "test", rrset_type := some "A"
              rrset_values := some ["192.0.2.1"], rrset_ttl := some 10800 }) }]) := by
  have h := create_record_only_201 created201Env (some "test") (some "A")
      (some ["192.0.2.1"]) (some 10800) none (some "my.com") 201 rfl (by omega)
  exact h.trans rfl

/-- Environment answering 400 to everything. -/
def status400Env : Env := fun _ => { status := 400 }

/-- C6 counterexample: an API call of the facts module failing with
status 400 carries the empty label, not "Bad request" — the facts
module's error table has no 400 entry, so the claimed single fixed
table does not govern both modules. -/
theorem facts_400_label_empty :
    GandiLivednsFacts.gandi_api_call status400Env "/zones" Method.GET none true =
      (Except.error (Err.failJson "API error ; Status: 400; Method: GET: Call: /zones"),
       [{ method := Method.GET, path := "/zones", payload := none }]) ∧
    GandiLivednsFacts.error_strings 400 = "" ∧
    GandiLivedns.error_strings 400 = "Bad request" :=
  ⟨rfl, rfl, rfl⟩

/-- C6 (amended): a failing API call of the management module carries a
label from the table 400 to "Bad request", 401 to "Permission denied",
404 to "Resource not found" (empty outside it), while a failing call of
the facts module carries a label from its smaller table with only the
401 and 404 entries (so 400 gets the empty label there). -/
theorem api_error_label_tables (env : Env) (c : String) (m : Method)
    (pl : Option Payload) (e4 : Bool) (s : Nat)
    (hs : (env { method := m, path := c, payload := pl }).status = s)
    (h400 : 400 ≤ s) (h404 : s ≠ 404 ∨ e4 = true) :
    GandiLivedns.gandi_api_call env c m pl e4 =
      (Except.error (Err.failJson (api_error_msg
          (if s = 400 then "Bad request" else if s = 401 then "Permission denied"
           else if s = 404 then "Resource not found" else "") s m c)),
       [{ method := m, path := c, payload := pl }]) ∧
    GandiLivednsFacts.gandi_api_call env c m pl e4 =
      (Except.error (Err.failJson (api_error_msg
          (if s = 401 then "Permission denied"
           else if s = 404 then "Resource not found" else "") s m c)),
       [{ method := m, path := c, payload := pl }]) := by
  constructor
  · unfold GandiLivedns.gandi_api_call
    dsimp only
    rw [hs, if_pos ⟨h400, h404⟩]
    rfl
  · unfold GandiLivednsFacts.gandi_api_call
    dsimp only
    rw [hs, if_pos h400]
    rfl

/-- Witness for C6 (amended) at status 400: "Bad request" in the
management module, empty label in the facts module. -/
theorem api_error_label_tables_witness :
    GandiLivedns.gandi_api_call status400Env "/zones" Method.GET none true =
      (Except.error (Err.failJson "API error Bad request; Status: 400; Method: GET: Call: /zones"),
       [{ method := Method.GET, path := "/zones", payload := none }]) ∧
    GandiLivednsFacts.gandi_api_call status400Env "/zones" Method.GET none true =
      (Except.error (Err.failJson "API error ; Status: 400; Method: GET: Call: /zones"),
       [{ method := Method.GET, path := "/zones", payload := none }]) := by
  have h := api_error_label_tables status400Env "/zones" Method.GET none true 400
      rfl (by omega) (Or.inl (by omega))
  exact ⟨h.1.trans rfl, h.2.trans rfl⟩

/-- C9: the facts module is read-only: every request it ever issues is a
GET, and any successful exit reports changed=false. -/
theorem facts_module_read_only (env : Env) (p : GandiLivednsFacts.Params) :
    readOnlyTrace (GandiLivednsFacts.main env p).2 = true ∧
    ∀ ex, (GandiLivednsFacts.main env p).1 = Except.ok ex → ex.changed = false := by
  refine ⟨readOnlyTrace_of_forall (GandiLivednsFacts.main_GET env p), ?_⟩
  intro ex h
  exact GandiLivednsFacts.main_changed_false env p ex h

/-- Environment with a single record for the facts lookup. -/
def factsRecordEnv : Env := fun req =>
  if req.path = "/domains/my.com/records/test/A" then
    { status := 200,
      body := some (Body.obj
        { rrset_name := some "test", rrset_type := some "A",
          rrset_ttl := some 300, rrset_values := some ["192.0.2.1"] }) }
  else { status := 200 }

/-- Facts-module parameters used by the C9 witness. -/
def factsParams : GandiLivednsFacts.Params :=
  { api_key := "k", record := some "test", type := some "A", domain := some "my.com" }

/-- The exit the facts module produces on `factsRecordEnv`/`factsParams`. -/
def factsExit : GandiLivednsFacts.ModuleExit :=
  { changed := false,
    records := some [{ name := some "test", type := some "A", ttl := some 300,
                       values := some ["192.0.2.1"], zone := none,
                       domain := some (some "my.com") }] }

/-- Witness for C9 at a concrete run. -/
theorem facts_module_read_only_witness :
    (GandiLivednsFacts.main factsRecordEnv factsParams).1 = Except.ok factsExit ∧
    factsExit.changed = false :=
  ⟨rfl, (facts_module_read_only factsRecordEnv factsParams).2 factsExit rfl⟩

/-- Environment listing one zone, stored lowercase at the provider. -/
def zonesEnv : Env := fun req =>
  if req.path = "/zones" then
    { status := 200,
      body := some (Body.list [{ name := some "example.com", uuid := some "zone-uuid-1" }]) }
  else { status := 200 }

/-- C10: `__init__` lowercases `record` and `domain` but copies `zone`
unchanged, and `_get_zone_id` matches zone names case-sensitively: with
the zone stored lowercase at the provider, the exact name resolves but a
differently-cased spelling aborts with the zone-not-found failure. -/
theorem zone_not_lowercased :
    (∀ p : GandiLivedns.Params,
        (GandiLivedns.initCtx p).zone = p.zone ∧
        (GandiLivedns.initCtx p).record = lowercase_string p.record ∧
        (GandiLivedns.initCtx p).domain = lowercase_string p.domain) ∧
    GandiLivedns.get_zone_id zonesEnv "example.com" =
      (Except.ok "zone-uuid-1", [{ method := Method.GET, path := "/zones", payload := none }]) ∧
    GandiLivedns.get_zone_id zonesEnv "EXAMPLE.COM" =
      (Except.error (Err.failJson "No zone found with name EXAMPLE.COM"),
       [{ method := Method.GET, path := "/zones", payload := none }]) :=
  ⟨fun _ => ⟨rfl, rfl, rfl⟩, rfl, rfl⟩

/-- C3: for a present-intent run where the lookup finds exactly one
matching record whose ttl equals the desired ttl and whose values equal
the desired values as mathematical sets (order- and
duplicate-insensitive), `ensure_dns_record` is a no-op: changed=false,
only GET requests issued, and the existing remote record is returned
unchanged. -/
theorem present_noop_when_equal (env : Env) (ctx : GandiLivedns.Ctx)
    (zid : Option String) (t0 t1 : List Request) (recObj : Obj) (t : Int)
    (vs rvs : List String)
    (hz : GandiLivedns.zone_id_opt env ctx = (Except.ok zid, t0))
    (hr : GandiLivedns.get_records env ctx.record ctx.type zid ctx.domain =
      (Except.ok (some [some recObj]), t1))
    (httl : ctx.ttl = some t) (hrttl : recObj.rrset_ttl = some t)
    (hvals : ctx.values = some vs) (hrvals : recObj.rrset_values = some rvs)
    (hset : pySetEq rvs vs = true) :
    GandiLivedns.ensure_dns_record env ctx =
      (Except.ok (some (GandiLivedns.RecordDict.raw recObj), false), t0 ++ t1) ∧
    readOnlyTrace (t0 ++ t1) = true := by
  constructor
  · unfold GandiLivedns.ensure_dns_record
    rw [hz]
    simp only [apiBind_ok]
    rw [hr]
    simp [GandiLivedns.ttlDiffers, GandiLivedns.valuesDiffer, dictGetTtl, dictGetValues,
          httl, hrttl, hvals, hrvals, hset, apiBind]
  · apply readOnlyTrace_append
    · apply readOnlyTrace_of_forall
      have h2 := GandiLivedns.zone_id_opt_GET env ctx
      rw [hz] at h2
      exact h2
    · apply readOnlyTrace_of_forall
      have h2 := GandiLivedns.get_records_GET env ctx.record ctx.type zid ctx.domain
      rw [hr] at h2
      exact h2

/-- The existing remote record for the C3 witness: values stored as
[b, a] while the desired values are [a, b]. -/
def noopRecord : Obj :=
  { rrset_name := some "test", rrset_type := some "A",
    rrset_ttl := some 10800, rrset_values := some ["b", "a"] }

/-- Environment returning `noopRecord` for the specific lookup. -/
def noopEnv : Env := fun req =>
  if req.path = "/domains/my.com/records/test/A" then
    { status := 200, body := some (Body.list [noopRecord]) }
  else { status := 200 }

/-- Module state for the C3 witness: desired values [a, b]. -/
def noopCtx : GandiLivedns.Ctx :=
  GandiLivedns.initCtx
    { api_key := "k", record := some "test", type := some "A",
      values := some ["a", "b"], domain := some "my.com" }

/-- Witness for C3: desired [a,b] against existing [b,a] is a no-op. -/
theorem present_noop_when_equal_witness :
    GandiLivedns.ensure_dns_record noopEnv noopCtx =
      (Except.ok (some (GandiLivedns.RecordDict.raw noopRecord), false),
       [{ method := Method.GET, path := "/domains/my.com/records/test/A", payload := none }]) ∧
    readOnlyTrace
      [{ method := Method.GET, path := "/domains/my.com/records/test/A", payload := none }] = true := by
  have h := present_noop_when_equal noopEnv noopCtx none []
      [{ method := Method.GET, path := "/domains/my.com/records/test/A", payload := none }]
      noopRecord 10800 ["a", "b"] ["b", "a"] rfl rfl rfl rfl rfl rfl rfl
  exact ⟨h.1.trans rfl, h.2⟩

/-- C8: an absent-intent run where either the lookup 404s (no record) or
returns an empty list is a no-op: changed=false and only GET requests
were issued, so no DELETE was sent. -/
theorem absent_noop_when_absent (env : Env) (ctx : GandiLivedns.Ctx)
    (zid : Option String) (t0 t1 : List Request)
    (v : Option (List (Option Obj)))
    (hz : GandiLivedns.zone_id_opt env ctx = (Except.ok zid, t0))
    (hr : GandiLivedns.get_records env ctx.record ctx.type zid ctx.domain =
      (Except.ok v, t1))
    (hempty : v = none ∨ v = some []) :
    GandiLivedns.delete_dns_records env ctx = (Except.ok false, t0 ++ t1) ∧
    readOnlyTrace (t0 ++ t1) = true := by
  constructor
  · unfold GandiLivedns.delete_dns_records
    rw [hz]
    simp only [apiBind_ok]
    rw [hr]
    rcases hempty with h | h <;> subst h <;> simp [apiBind]
  · apply readOnlyTrace_append
    · apply readOnlyTrace_of_forall
      have h2 := GandiLivedns.zone_id_opt_GET env ctx
      rw [hz] at h2
      exact h2
    · apply readOnlyTrace_of_forall
      have h2 := GandiLivedns.get_records_GET env ctx.record ctx.type zid ctx.domain
      rw [hr] at h2
      exact h2

/-- Parameters for the C8 witness: absent intent, no values supplied. -/
def absentParams : GandiLivedns.Params :=
  { api_key := "k", record := some "test", state := "absent", type := some "A",
    domain := some "my.com" }

/-- Witness for C8: deleting an already-absent record. -/
theorem absent_noop_when_absent_witness :
    GandiLivedns.delete_dns_records noRecordEnv (GandiLivedns.initCtx absentParams) =
      (Except.ok false,
       [{ method := Method.GET, path := "/domains/my.com/records/test/A", payload := none }]) := by
  have h := absent_noop_when_absent noRecordEnv (GandiLivedns.initCtx absentParams) none []
      [{ method := Method.GET, path := "/domains/my.com/records/test/A", payload := none }]
      none rfl rfl (Or.inl rfl)
  exact h.1.trans rfl

/-- Absent-intent parameters that also supply record values. -/
def absentValuesParams : GandiLivedns.Params :=
  { api_key := "k", record := some "test", state := "absent", type := some "A",
    values := some ["127.0.0.1"], domain := some "my.com" }

/-- Environment with no matching record for the absent-with-values run. -/
def absentNoRecordEnv : Env := fun req =>
  if req.path = "/domains/my.com/records/test/A" then { status := 404 }
  else { status := 200 }

/-- C7 counterexample: an absent-intent invocation that supplies record
values does not fail when no matching record exists remotely — it exits
successfully with changed=false, because the misuse checks live inside
`delete_record`, which is never called on that path. -/
theorem absent_with_values_no_failure :
    GandiLivedns.main absentNoRecordEnv absentValuesParams =
      (Except.ok { changed := false, record := none },
       [{ method := Method.GET, path := "/domains/my.com/records/test/A", payload := none }]) ∧
    (GandiLivedns.main absentNoRecordEnv absentValuesParams).1 ≠
      Except.error (Err.failJson "You cannot provide a value when deleting a record") := by
  have h1 : (GandiLivedns.main absentNoRecordEnv absentValuesParams).1 =
      Except.ok { changed := false, record := none } := rfl
  refine ⟨rfl, ?_⟩
  rw [h1]
  simp

/-- C7 (amended): when the absent-intent flow actually reaches the
delete — a matching record exists and check mode is off — a missing
type or record name, or a supplied value payload, aborts the invocation
with the corresponding misuse error, and the trace up to the failure is
GET-only, so the DELETE request is never sent. -/
theorem delete_misuse_fails_before_delete (env : Env) (ctx : GandiLivedns.Ctx)
    (zid : Option String) (t0 t1 : List Request) (rec0 : Option Obj)
    (rest : List (Option Obj))
    (hz : GandiLivedns.zone_id_opt env ctx = (Except.ok zid, t0))
    (hr : GandiLivedns.get_records env ctx.record ctx.type zid ctx.domain =
      (Except.ok (some (rec0 :: rest)), t1))
    (hcm : ctx.check_mode = false) :
    ((ctx.type = none ∨ ctx.record = none) →
      GandiLivedns.delete_dns_records env ctx =
        (Except.error
          (Err.failJson "You must provide a type and a record to delete a record"),
         t0 ++ t1) ∧
      readOnlyTrace (t0 ++ t1) = true) ∧
    (ctx.type ≠ none → ctx.record ≠ none → ctx.values ≠ none →
      GandiLivedns.delete_dns_records env ctx =
        (Except.error
          (Err.failJson "You cannot provide a value when deleting a record"),
         t0 ++ t1) ∧
      readOnlyTrace (t0 ++ t1) = true) := by
  have hro : readOnlyTrace (t0 ++ t1) = true := by
    apply readOnlyTrace_append
    · apply readOnlyTrace_of_forall
      have h2 := GandiLivedns.zone_id_opt_GET env ctx
      rw [hz] at h2
      exact h2
    · apply readOnlyTrace_of_forall
      have h2 := GandiLivedns.get_records_GET env ctx.record ctx.type zid ctx.domain
      rw [hr] at h2
      exact h2
  constructor
  · intro hmiss
    refine ⟨?_, hro⟩
    unfold GandiLivedns.delete_dns_records
    rw [hz]
    simp only [apiBind_ok]
    rw [hr]
    unfold GandiLivedns.delete_record
    rw [if_pos hmiss]
    simp [hcm, apiBind]
  · intro h1 h2 h3
    refine ⟨?_, hro⟩
    unfold GandiLivedns.delete_dns_records
    rw [hz]
    simp only [apiBind_ok]
    rw [hr]
    unfold GandiLivedns.delete_record
    rw [if_neg (not_or.mpr ⟨h1, h2⟩), if_pos h3]
    simp [hcm, apiBind]

/-- The existing record for the C7 witness. -/
def deleteMisuseRecord : Obj :=
  { rrset_name := some "test", rrset_type := some "A",
    rrset_ttl := some 300, rrset_values := some ["192.0.2.7"] }

/-- Environment with a matching record for the absent-with-values run. -/
def deleteMisuseEnv : Env := fun req =>
  if req.path = "/domains/my.com/records/test/A" then
    { status := 200, body := some (Body.obj deleteMisuseRecord) }
  else { status := 200 }

/-- Module state of an absent-intent run that supplies record values. -/
def deleteMisuseCtx : GandiLivedns.Ctx :=
  GandiLivedns.initCtx
    { api_key := "k", record := some "test", state := "absent", type := some "A",
      values := some ["192.0.2.7"], domain := some "my.com" }

/-- Witness for C7 (amended): the delete flow with a value payload fails
with the misuse error after the GET lookup only. -/
theorem delete_misuse_fails_before_delete_witness :
    GandiLivedns.delete_dns_records deleteMisuseEnv deleteMisuseCtx =
      (Except.error (Err.failJson "You cannot provide a value when deleting a record"),
       [{ method := Method.GET, path := "/domains/my.com/records/test/A", payload := none }]) := by
  have h := (delete_misuse_fails_before_delete deleteMisuseEnv deleteMisuseCtx none []
      [{ method := Method.GET, path := "/domains/my.com/records/test/A", payload := none }]
      (some deleteMisuseRecord) [] rfl rfl rfl).2
      (by simp [deleteMisuseCtx, GandiLivedns.initCtx])
      (by simp [deleteMisuseCtx, GandiLivedns.initCtx, lowercase_string])
      (by simp [deleteMisuseCtx, GandiLivedns.initCtx])
  exact h.1.trans rfl

/-- The zone listed by the provider for the C4 runs. -/
def bothZone : Obj := { name := some "my.com", uuid := some "zone-uuid-9" }

/-- The existing record for the C4 runs. -/
def bothRecord : Obj :=
  { rrset_name := some "test", rrset_type := some "A",
    rrset_ttl := some 10800, rrset_values := some ["192.0.2.4"] }

/-- Environment serving the zone listing and the zone-scoped lookup. -/
def bothEnv : Env := fun req =>
  if req.path = "/zones" then { status := 200, body := some (Body.list [bothZone]) }
  else if req.path = "/zones/zone-uuid-9/records/test/A" then
    { status := 200, body := some (Body.list [bothRecord]) }
  else { status := 200 }

/-- Parameters supplying both zone and domain. -/
def bothParams : GandiLivedns.Params :=
  { api_key := "k", record := some "test", type := some "A",
    values := some ["192.0.2.4"], zone := some "my.com", domain := some "other.com" }

/-- C4 counterexample: with both zone and domain supplied, resolution is
indeed zone-scoped (the trace shows the zone listing and the
zone-id-scoped lookup path), but the output record does not carry the
'domain' field: the 'zone' key is attached instead, refuting the
output-labeling half of the claim. -/
theorem both_zone_domain_output_keeps_zone :
    GandiLivedns.main bothEnv bothParams =
      (Except.ok
         { changed := false
           record := some (some
             { name := some "test", type := some "A", ttl := some 10800
               values := some ["192.0.2.4"], zone := some "my.com", domain := none }) },
       [{ method := Method.GET, path := "/zones", payload := none },
        { method := Method.GET, path := "/zones/zone-uuid-9/records/test/A", payload := none }]) :=
  rfl

/-- C4 (amended): whenever zone is supplied (truthy), it wins both ways:
the scope is resolved through `_get_zone_id` on the zone name, and
`build_result` labels the output with the 'zone' key, leaving the
'domain' key absent regardless of the supplied domain. -/
theorem zone_precedence_resolution_and_labeling (env : Env)
    (ctx : GandiLivedns.Ctx) (r : GandiLivedns.RecordDict)
    (hzone : truthyStr ctx.zone = true) :
    GandiLivedns.build_result ctx (some r) =
      some { name := r.getRrsetName, type := r.getRrsetType,
             ttl := r.getRrsetTtl, values := r.getRrsetValues,
             zone := ctx.zone, domain := none } ∧
    GandiLivedns.zone_id_opt env ctx =
      apiBind (GandiLivedns.get_zone_id env (strOfOpt ctx.zone))
        (fun zid => (Except.ok (some zid), [])) := by
  constructor
  · simp [GandiLivedns.build_result, hzone]
  · simp [GandiLivedns.zone_id_opt, hzone]

/-- Module state with both zone and domain supplied. -/
def bothCtx : GandiLivedns.Ctx := GandiLivedns.initCtx bothParams

/-- Witness for C4 (amended) at the concrete both-supplied state. -/
theorem zone_precedence_resolution_and_labeling_witness :
    GandiLivedns.build_result bothCtx (some (GandiLivedns.RecordDict.raw bothRecord)) =
      some { name := some "test", type := some "A", ttl := some 10800,
             values := some ["192.0.2.4"], zone := some "my.com", domain := none } := by
  have h := (zone_precedence_resolution_and_labeling bothEnv bothCtx
      (GandiLivedns.RecordDict.raw bothRecord) rfl).1
  exact h.trans rfl
